import Mathlib

/-!
# Verification of the backend-process supervisor of `main.js`

Shallow embedding of the supervisor logic of the Electron main process
(`src/main.js`): environment-overlay parsing (`loadEnvFile`), the merged
child environment (`flaskEnv`), the bounded health poller
(`checkFlaskServer`), the event-driven startup sequence
(`startFlaskServer`), graceful/forced shutdown (`stopFlaskServer`), the
port-availability check (`isPortAvailable`) and the `app.whenReady`
orchestration. Asynchronous callbacks are modelled as a deterministic
step function folded over an explicit list of events.
-/

namespace Supervisor

/-! ## Environment-overlay parsing (`loadEnvFile`, main.js 25–46)

The JS code reads the `.env` file, splits on `'\n'`, trims each line,
skips empty lines and lines starting with `#`, splits a surviving line
on `'='` into `[key, ...valueParts]`, keeps it when `key` is non-empty
(JS truthiness on the untrimmed first part) and at least one `'='` was
present, and stores `envVars[key.trim()] = valueParts.join('=').trim()`.
Later assignments to the same key overwrite earlier ones. -/

/-- JS `s.split(sep)` for a single-character separator: splits at every
occurrence, keeping empty parts; `''.split(sep)` is `['']`. -/
def splitOnChar (sep : Char) : List Char → List (List Char)
  | [] => [[]]
  | c :: rest =>
    match splitOnChar sep rest, c == sep with
    | r, true => [] :: r
    | [], false => [[c]]
    | h :: t, false => (c :: h) :: t

/-- JS `parts.join(sep)` for a single-character separator. -/
def joinWithChar (sep : Char) : List (List Char) → List Char
  | [] => []
  | [x] => x
  | x :: y :: t => x ++ sep :: joinWithChar sep (y :: t)

/-- JS `s.trim()`: strip leading and trailing whitespace. -/
def trimChars (s : List Char) : List Char :=
  ((s.dropWhile Char.isWhitespace).reverse.dropWhile Char.isWhitespace).reverse

/-- One line of the `.env` file, after the outer `split('\n')`:
mirrors the body of the `forEach` callback in `loadEnvFile`. The line
is trimmed; empty lines and lines starting with `#` are skipped; the
line is split on `'='` into `[key, ...valueParts]`; it survives when
`key` is non-empty (JS truthiness) and at least one `'='` was present;
the stored pair is `(key.trim(), valueParts.join('=').trim())`. -/
def parseEnvLine (line : List Char) : Option (String × String) :=
  let t := trimChars line
  if t.isEmpty then none
  else if t.head? == some '#' then none
  else match splitOnChar '=' t with
    | [] => none
    | [_] => none
    | key :: valueParts =>
      if key.isEmpty then none
      else some (String.mk (trimChars key),
                 String.mk (trimChars (joinWithChar '=' valueParts)))

/-- `loadEnvFile`, with the file content passed explicitly: the ordered
list of `KEY=VALUE` assignments the loop performs on the `envVars`
object, in file order. -/
def loadEnvFile (content : String) : List (String × String) :=
  (splitOnChar '\n' content.data).filterMap parseEnvLine

/-- Lookup in a JS object built by assigning the pairs in order:
the last assignment to a key wins. -/
def envLookup (pairs : List (String × String)) (k : String) : Option String :=
  (pairs.reverse.find? (fun p => p.1 == k)).map (fun p => p.2)

/-! ## Merged child environment (`flaskEnv`, main.js 702–710)

`{ ...process.env, ...envVars, FLASK_PORT, FLASK_HOST, FLASK_DEBUG,
PYTHONUNBUFFERED }`: object-spread semantics, later sources override
earlier ones. -/

/-- The `flaskEnv` object of `startFlaskServer`, as a lookup function.
`procEnv` models `process.env`, `envVars` the `.env` overlay. -/
def flaskEnv (procEnv envVars : List (String × String))
    (port host : String) (isDev : Bool) : String → Option String :=
  envLookup (procEnv ++ envVars ++
    [("FLASK_PORT", port), ("FLASK_HOST", host),
     ("FLASK_DEBUG", if isDev then "True" else "False"),
     ("PYTHONUNBUFFERED", "1")])

/-! ## Health poller (`checkFlaskServer`, main.js 79–125)

One attempt issues an HTTP GET; the response is a success iff
`res.statusCode === 200`; request errors and per-attempt timeouts also
fall through to `retryCheck`. `retryCheck` increments `retries`,
schedules another attempt after `retryDelay` while `retries <
maxRetries`, and otherwise rejects. -/

/-- Outcome of one HTTP probe: `none` models a connection error or the
2-second per-attempt timeout, `some c` a response with status code `c`. -/
abbrev ProbeOutcome := Option Nat

/-- The success test of one attempt: `res.statusCode === 200`
(main.js 93). -/
def probeOk (outcome : ProbeOutcome) : Bool :=
  outcome == some 200

instance : DecidableEq (Except String Unit) := fun
  | .ok (), .ok () => isTrue rfl
  | .ok (), .error _ => isFalse (fun h => Except.noConfusion h)
  | .error _, .ok () => isFalse (fun h => Except.noConfusion h)
  | .error a, .error b =>
    if h : a = b then isTrue (by rw [h]) else
      isFalse (fun hc => h (by injection hc))

/-- Result of the `checkFlaskServer` promise together with attempt
accounting: the settled value, the number of attempts performed, and
the number of `setTimeout(check, retryDelay)` waits taken. -/
structure CheckResult where
  result   : Except String Unit
  attempts : Nat
  delays   : Nat
  deriving Repr, DecidableEq

/-- The loop of `checkFlaskServer`: `probe i` is the outcome of the
`i`-th attempt (0-based); `retries` is the current value of the
`retries` counter. Mirrors `check`/`retryCheck` exactly: an attempt
always runs, a failing attempt increments `retries`, retries while
`retries < maxRetries`, else rejects with the fixed message. -/
def checkLoop (probe : Nat → ProbeOutcome) (maxRetries : Nat) :
    Nat → CheckResult
  | retries =>
    if probeOk (probe retries) then
      ⟨Except.ok (), retries + 1, 0⟩
    else if h : retries + 1 < maxRetries then
      let r := checkLoop probe maxRetries (retries + 1)
      ⟨r.result, r.attempts, r.delays + 1⟩
    else
      ⟨Except.error "Flask server did not respond in time", retries + 1, 0⟩
  termination_by retries => maxRetries - retries
  decreasing_by omega

/-- `checkFlaskServer(maxRetries, retryDelay)`: the loop started with
`retries = 0`. -/
def checkFlaskServer (probe : Nat → ProbeOutcome) (maxRetries : Nat) :
    CheckResult :=
  checkLoop probe maxRetries 0

/-! ## Fixed constants of the source -/

/-- Default attempt budget of `checkFlaskServer` (main.js 79) and the
budget used on the signature-confirmed path (main.js 733). -/
def SIGNATURE_CHECK_RETRIES : Nat := 10

/-- Attempt budget of the timeout-fallback `checkFlaskServer(5, 1000)`
call (main.js 779). -/
def FALLBACK_CHECK_RETRIES : Nat := 5

/-- Fixed inter-attempt delay in milliseconds (main.js 79, 733, 779). -/
def CHECK_RETRY_DELAY_MS : Nat := 1000

/-- Per-attempt HTTP timeout in milliseconds (main.js 89). -/
def PER_ATTEMPT_TIMEOUT_MS : Nat := 2000

/-- The startup-timeout window in milliseconds (main.js 791). -/
def STARTUP_TIMEOUT_MS : Nat := 15000

/-- Shutdown grace period in milliseconds (main.js 815). -/
def GRACE_PERIOD_MS : Nat := 5000

/-! ## Stream-signature matching (main.js 727–729, 750–753)

`String.prototype.includes` on each data chunk. -/

/-- `pat` occurs as a contiguous run at the head of `s`. -/
def charsPrefix : List Char → List Char → Bool
  | [], _ => true
  | _ :: _, [] => false
  | a :: as, b :: bs => a == b && charsPrefix as bs

/-- `pat` occurs as a contiguous run somewhere in `s`. -/
def charsIncl (pat : List Char) : List Char → Bool
  | [] => pat.isEmpty
  | b :: bs => charsPrefix pat (b :: bs) || charsIncl pat bs

/-- JS `s.includes(pat)`. -/
def strIncludes (s pat : String) : Bool :=
  charsIncl pat.data s.data

/-- The readiness-signature test on a stdout chunk (main.js 727–729). -/
def isReadinessChunk (s : String) : Bool :=
  strIncludes s "Running on" || strIncludes s "Serving Flask" ||
  strIncludes s "Server starting"

/-- The fatal-failure test on a stderr chunk (main.js 750–753). -/
def isFatalChunk (s : String) : Bool :=
  strIncludes s "Address already in use" || strIncludes s "Permission denied" ||
  strIncludes s "ModuleNotFoundError" || strIncludes s "ImportError"

/-! ## The startup sequence (`startFlaskServer`, main.js 685–798)

The body after the spawn is a set of asynchronous callbacks around one
promise: stdout data chunks (readiness signatures start a
`checkFlaskServer(10, 1000)` pass, guarded by `serverStarted`), stderr
data chunks (fatal signatures reject while `!serverStarted`), the
15-second fallback timer (starts `checkFlaskServer(5, 1000)` while
`!serverStarted`), and the completions of individual HTTP probe
attempts. We model them as events consumed by a deterministic step
function; a `checkFlaskServer` pass in flight is recorded with its
`retries` counter and consumes `probeDone` events tagged with the id it
was started under. The promise settles once: the first resolve/reject
wins, later ones are ignored. -/

/-- One in-flight `checkFlaskServer` pass: its budget, current
`retries` counter, and whether it was started by the fallback timer
(main.js 776–791) rather than by a readiness signature
(main.js 732–742). -/
structure PendingCheck where
  maxRetries  : Nat
  retries     : Nat
  fromTimeout : Bool
  deriving Repr, DecidableEq

/-- State of one `startFlaskServer` promise: the `serverStarted` flag,
the settled value of the promise (`none` while pending), the in-flight
health-check passes tagged with start ids, the next fresh id, and the
total number of probe attempts performed so far. -/
structure StartSt where
  serverStarted : Bool
  settled       : Option (Except String Unit)
  checks        : List (Nat × PendingCheck)
  nextId        : Nat
  probesUsed    : Nat
  deriving Repr, DecidableEq

/-- Events delivered to the callbacks of `startFlaskServer`. -/
inductive StartEv where
  | stdoutData (s : String)
  | stderrData (s : String)
  | startupTimeout
  | probeDone (id : Nat) (outcome : ProbeOutcome)
  deriving Repr, DecidableEq

/-- Settle the promise: the first resolve/reject wins. -/
def settle (σ : StartSt) (r : Except String Unit) : StartSt :=
  if σ.settled.isSome then σ else { σ with settled := some r }

/-- Start a `checkFlaskServer(maxRetries, 1000)` pass. -/
def startCheck (σ : StartSt) (maxRetries : Nat) (fromTimeout : Bool) :
    StartSt :=
  { σ with
    checks := σ.checks ++ [(σ.nextId, ⟨maxRetries, 0, fromTimeout⟩)],
    nextId := σ.nextId + 1 }

/-- One event of the startup sequence (main.js 721–791). -/
def startFlaskStep (σ : StartSt) (e : StartEv) : StartSt :=
  match e with
  | .stdoutData s =>
    if isReadinessChunk s && !σ.serverStarted then
      startCheck { σ with serverStarted := true } SIGNATURE_CHECK_RETRIES false
    else σ
  | .stderrData s =>
    if isFatalChunk s && !σ.serverStarted then settle σ (.error s) else σ
  | .startupTimeout =>
    if !σ.serverStarted then startCheck σ FALLBACK_CHECK_RETRIES true else σ
  | .probeDone id outcome =>
    match σ.checks.find? (fun c => c.1 == id) with
    | none => σ
    | some (_, pc) =>
      let σ1 := { σ with probesUsed := σ.probesUsed + 1 }
      if probeOk outcome then
        let σ2 := { σ1 with checks := σ1.checks.filter (fun c => c.1 != id) }
        if pc.fromTimeout then settle { σ2 with serverStarted := true } (.ok ())
        else settle σ2 (.ok ())
      else if pc.retries + 1 < pc.maxRetries then
        let bump := fun (c : Nat × PendingCheck) =>
          if c.1 == id then (c.1, { pc with retries := pc.retries + 1 }) else c
        { σ1 with checks := σ1.checks.map bump }
      else
        let σ2 := { σ1 with checks := σ1.checks.filter (fun c => c.1 != id) }
        settle σ2 (.error (if pc.fromTimeout then "Flask server did not start in time"
                           else "Flask server did not respond in time"))

/-- State right after the spawn: nothing seen, promise pending. -/
def startInit : StartSt := ⟨false, none, [], 0, 0⟩

/-- Run the startup sequence over a list of events. -/
def startFlaskRun (evs : List StartEv) : StartSt :=
  evs.foldl startFlaskStep startInit

/-! ## Shutdown (`stopFlaskServer`, main.js 801–817)

`stopFlaskServer` sends SIGTERM when `flaskProcess` is non-null and
arms a 5-second timer; the timer sends SIGKILL iff `flaskProcess` is
still non-null when it fires. The `close` handler of the child
(main.js 767–773) sets `flaskProcess = null` when the process exits. -/

/-- Signals the supervisor can send to the child. -/
inductive Signal where
  | sigterm
  | sigkill
  deriving Repr, DecidableEq

/-- State of the shutdown logic: the `flaskProcess` global (`none`
models null) with the signals sent so far and whether the force-kill
timer has been armed. -/
structure ShutSt where
  flaskProcess   : Option Unit
  sent           : List Signal
  killTimerArmed : Bool
  deriving Repr, DecidableEq

/-- Events of the shutdown logic: a call to `stopFlaskServer`, the
child's `close` event, and the 5-second force-kill timer firing. -/
inductive ShutEv where
  | stopCall
  | childClose
  | graceTimer
  deriving Repr, DecidableEq

/-- One event of the shutdown logic. -/
def stopFlaskStep (σ : ShutSt) (e : ShutEv) : ShutSt :=
  match e with
  | .stopCall =>
    if σ.flaskProcess.isSome then
      { σ with sent := σ.sent ++ [Signal.sigterm], killTimerArmed := true }
    else σ
  | .childClose => { σ with flaskProcess := none }
  | .graceTimer =>
    if σ.flaskProcess.isSome then
      { σ with flaskProcess := none, sent := σ.sent ++ [Signal.sigkill] }
    else σ

/-- Run the shutdown logic over a list of events. -/
def stopFlaskRun (σ : ShutSt) (evs : List ShutEv) : ShutSt :=
  evs.foldl stopFlaskStep σ

/-- A live child process, no signal sent yet. -/
def liveProc : ShutSt := ⟨some (), [], false⟩

/-- No process was ever launched: `flaskProcess` is null. -/
def noProc : ShutSt := ⟨none, [], false⟩

/-! ## Port availability (`isPortAvailable`, main.js 820–836) -/

/-- Outcome of `server.listen(port, FLASK_HOST)`: the `'error'` event
(port occupied or permission denied) or the `'listening'` event. -/
inductive BindOutcome where
  | bindError
  | listening
  deriving Repr, DecidableEq

/-- `isPortAvailable`: resolves `false` on `'error'`, `true` (after
closing the probe server) on `'listening'`. -/
def isPortAvailable : BindOutcome → Bool
  | .bindError => false
  | .listening => true

/-! ## Orchestration (`app.whenReady`, main.js 890–952)

The sequence: check the port; when occupied, show a dialog whose
button 0 quits (before anything is spawned) and whose button 1
("Réessayer") falls through WITHOUT re-checking; run
`startFlaskServer` (which throws before spawning when no Python
interpreter is found, rejects before spawning when the script file is
missing, and otherwise spawns and settles as modelled above); on
failure show a dialog whose button 0 quits and whose button 1
("Continuer sans serveur") falls through; then `createWindow()` (whose
one-shot `ready-to-show` handler sends the `flask-server-ready`
notification, main.js 162–175) and `createTray()`. -/

/-- A binary dialog answer: button 0 (quit) or button 1 (retry /
continue without server). -/
inductive Choice where
  | quitApp
  | keepGoing
  deriving Repr, DecidableEq

/-- Observable outcome of one `app.whenReady` run. -/
structure AppOutcome where
  /-- A child process was spawned (`spawn` was reached). -/
  spawned            : Bool
  /-- `app.quit()` was called during startup. -/
  didQuit            : Bool
  /-- `createWindow()` ran. -/
  windowCreated      : Bool
  /-- Number of `flask-server-ready` notifications sent. -/
  readyNotifications : Nat
  /-- `startFlaskServer` resolved successfully. -/
  flaskStarted       : Bool
  deriving Repr, DecidableEq

/-- The `app.whenReady` flow. `portBind` is the outcome of the bind
probe; `startup` the settled value of the modelled startup sequence
(relevant only when Python and the script are found, which are the
spawn preconditions, main.js 688–700). -/
def appWhenReady (portBind : BindOutcome) (portChoice : Choice)
    (pythonFound scriptExists : Bool) (startup : Except String Unit)
    (failChoice : Choice) : AppOutcome :=
  if isPortAvailable portBind = false ∧ portChoice = Choice.quitApp then
    ⟨false, true, false, 0, false⟩
  else
    let spawned := pythonFound && scriptExists
    let result : Except String Unit :=
      if !pythonFound then Except.error "Python not found. Please install Python 3.7+"
      else if !scriptExists then Except.error "Script Flask introuvable"
      else startup
    match result with
    | .ok () => ⟨spawned, false, true, 1, true⟩
    | .error _ =>
      if failChoice = Choice.quitApp then ⟨spawned, true, false, 0, false⟩
      else ⟨spawned, false, true, 1, false⟩

/-- An event that carries no signature and fires no timer: a stdout
chunk without a readiness signature or a stderr chunk without a fatal
signature. Such events leave the startup state untouched. -/
def benignEv : StartEv → Bool
  | .stdoutData s => !isReadinessChunk s
  | .stderrData s => !isFatalChunk s
  | .startupTimeout => false
  | .probeDone _ _ => false

/-! ## Helper lemmas -/

theorem findQ_append (p : (String × String) → Bool) (l1 l2 : List (String × String)) :
    (l1 ++ l2).find? p = (l1.find? p).or (l2.find? p) := by
  induction l1 with
  | nil => simp
  | cons a as ih =>
    by_cases h : p a <;> simp [List.find?_cons, h, ih]

theorem envLookup_append (xs ys : List (String × String)) (k : String) :
    envLookup (xs ++ ys) k = (envLookup ys k).or (envLookup xs k) := by
  simp only [envLookup, List.reverse_append, findQ_append]
  cases ys.reverse.find? (fun p => p.1 == k) <;> simp [Option.or]

theorem checkLoop_fail_aux (probe : Nat → ProbeOutcome) (m : Nat)
    (hf : ∀ i, probeOk (probe i) = false) :
    ∀ k r, m - r = k → r < m →
      checkLoop probe m r =
        ⟨Except.error "Flask server did not respond in time", m, m - 1 - r⟩ := by
  intro k
  induction k with
  | zero => intro r hk hr; omega
  | succ n ih =>
    intro r hk hr
    rw [checkLoop]
    rw [hf r]
    simp only [Bool.false_eq_true, if_false]
    split
    · next h =>
      rw [ih (r + 1) (by omega) h]
      have h2 : m - 1 - (r + 1) + 1 = m - 1 - r := by omega
      simp [h2]
    · next h =>
      have h1 : r + 1 = m := by omega
      have h2 : m - 1 - r = 0 := by omega
      simp [h1, h2]

theorem checkLoop_success_aux (probe : Nat → ProbeOutcome) (m : Nat) :
    ∀ k r j, j - r = k → r ≤ j → j < m →
      (∀ i, r ≤ i → i < j → probeOk (probe i) = false) →
      probeOk (probe j) = true →
      checkLoop probe m r = ⟨Except.ok (), j + 1, j - r⟩ := by
  intro k
  induction k with
  | zero =>
    intro r j hk hrj hjm hf hs
    have : r = j := by omega
    subst this
    rw [checkLoop, hs]
    simp
  | succ n ih =>
    intro r j hk hrj hjm hf hs
    have hrj2 : r < j := by omega
    rw [checkLoop]
    rw [hf r (le_refl r) hrj2]
    simp only [Bool.false_eq_true, if_false]
    have hcond : r + 1 < m := by omega
    rw [dif_pos hcond]
    rw [ih (r + 1) j (by omega) (by omega) hjm (fun i h1 h2 => hf i (by omega) h2) hs]
    have h2 : j - (r + 1) + 1 = j - r := by omega
    simp [h2]

theorem benign_run (evs : List StartEv) (hq : ∀ e ∈ evs, benignEv e = true) :
    startFlaskRun evs = startInit := by
  induction evs with
  | nil => rfl
  | cons e es ih =>
    have he : benignEv e = true := hq e (List.mem_cons_self e es)
    have hstep : startFlaskStep startInit e = startInit := by
      cases e with
      | stdoutData s =>
        have hr : isReadinessChunk s = false := by simpa [benignEv] using he
        simp [startFlaskStep, hr]
      | stderrData s =>
        have hf : isFatalChunk s = false := by simpa [benignEv] using he
        simp [startFlaskStep, hf]
      | startupTimeout => simp [benignEv] at he
      | probeDone id oc => simp [benignEv] at he
    have hrest : ∀ e2 ∈ es, benignEv e2 = true :=
      fun e2 h2 => hq e2 (List.mem_cons_of_mem e h2)
    calc startFlaskRun (e :: es)
        = es.foldl startFlaskStep (startFlaskStep startInit e) := rfl
      _ = es.foldl startFlaskStep startInit := by rw [hstep]
      _ = startInit := ih hrest

/-! ## Claim theorems -/

/-- C2: for every attempt budget `maxRetries ≥ 1`, if no probe ever
succeeds then `checkFlaskServer` performs exactly `maxRetries` attempts
(with `maxRetries - 1` fixed 1000 ms inter-attempt delays) and rejects
with the error "Flask server did not respond in time"; and when the
first successful probe is attempt `j`, it resolves immediately after
that attempt, having performed exactly `j + 1` attempts. -/
theorem checkFlaskServer_exact_budget (probe : Nat → ProbeOutcome) (maxRetries : Nat) :
    CHECK_RETRY_DELAY_MS = 1000 ∧
    (1 ≤ maxRetries → (∀ i, probeOk (probe i) = false) →
      checkFlaskServer probe maxRetries =
        ⟨Except.error "Flask server did not respond in time", maxRetries, maxRetries - 1⟩) ∧
    (∀ j, j < maxRetries → (∀ i, i < j → probeOk (probe i) = false) →
      probeOk (probe j) = true →
      checkFlaskServer probe maxRetries = ⟨Except.ok (), j + 1, j⟩) := by
  refine ⟨rfl, ?_, ?_⟩
  · intro h1 hf
    have h := checkLoop_fail_aux probe maxRetries hf (maxRetries - 0) 0 rfl (by omega)
    simpa [checkFlaskServer] using h
  · intro j hj hf hs
    have h := checkLoop_success_aux probe maxRetries (j - 0) 0 j rfl (by omega) hj
      (fun i h1 h2 => hf i h2) hs
    simpa [checkFlaskServer] using h

/-- C2 witness: with a budget of 3 and every probe failing, exactly 3
attempts and the fixed rejection; with success on the second attempt,
exactly 2 attempts. -/
theorem checkFlaskServer_exact_budget_witness :
    checkFlaskServer (fun _ => none) 3 =
      ⟨Except.error "Flask server did not respond in time", 3, 2⟩ ∧
    checkFlaskServer (fun i => if i = 1 then some 200 else none) 10 =
      ⟨Except.ok (), 2, 1⟩ :=
  ⟨(checkFlaskServer_exact_budget (fun _ => none) 3).2.1 (by omega) (fun _ => rfl),
   (checkFlaskServer_exact_budget (fun i => if i = 1 then some 200 else none) 10).2.2 1
     (by omega) (fun i hi => by
       have h0 : i = 0 := Nat.lt_one_iff.mp hi
       subst h0; rfl) (by rfl)⟩

/-- C10: a probe attempt counts as a success iff the HTTP status code
is exactly 200; request errors and timeouts (`none`) fail too, and a
run whose first two responses are 204 and 302 consumes two units of the
retry budget before succeeding on the 200. -/
theorem probe_success_iff_200 :
    (∀ c : Nat, probeOk (some c) = true ↔ c = 200) ∧
    probeOk none = false ∧
    checkFlaskServer (fun i => [some 204, some 302, some 200].getD i none) 10 =
      ⟨Except.ok (), 3, 2⟩ := by
  refine ⟨?_, rfl, ?_⟩
  · intro c; simp [probeOk]
  · simp [checkFlaskServer, checkLoop, probeOk]

/-- C7: the `.env` parser yields `{A: "1", B: "2=3"}` on the claim's
example file (only the first `=` splits, comment and blank lines are
skipped), a later `A=9` line overrides the earlier value, and in
general an assignment appended after any pair list wins the lookup. -/
theorem loadEnvFile_spec :
    loadEnvFile "A=1\n# comment\n\nB=2=3" = [("A", "1"), ("B", "2=3")] ∧
    envLookup (loadEnvFile "A=1\n# comment\n\nB=2=3\nA=9") "A" = some "9" ∧
    (∀ (ps : List (String × String)) (k v : String),
      envLookup (ps ++ [(k, v)]) k = some v) := by
  refine ⟨by decide, by decide, ?_⟩
  intro ps k v
  simp [envLookup, List.find?]

/-- C8: in the merged child environment, a key of the `.env` overlay
overrides the inherited process environment, and the explicit runtime
values (`FLASK_PORT`, `FLASK_HOST`, `FLASK_DEBUG`, plus
`PYTHONUNBUFFERED`) override both. -/
theorem flaskEnv_override_order (procEnv envVars : List (String × String))
    (port host : String) (isDev : Bool) (k : String)
    (h1 : k ≠ "FLASK_PORT") (h2 : k ≠ "FLASK_HOST")
    (h3 : k ≠ "FLASK_DEBUG") (h4 : k ≠ "PYTHONUNBUFFERED") :
    flaskEnv procEnv envVars port host isDev k =
      (envLookup envVars k).or (envLookup procEnv k) ∧
    flaskEnv procEnv envVars port host isDev "FLASK_PORT" = some port ∧
    flaskEnv procEnv envVars port host isDev "FLASK_HOST" = some host ∧
    flaskEnv procEnv envVars port host isDev "FLASK_DEBUG" =
      some (if isDev then "True" else "False") ∧
    flaskEnv procEnv envVars port host isDev "PYTHONUNBUFFERED" = some "1" := by
  refine ⟨?_, ?_, ?_, ?_, ?_⟩
  · simp only [flaskEnv, ← List.append_assoc]
    rw [envLookup_append]
    have hx : envLookup [("FLASK_PORT", port), ("FLASK_HOST", host),
        ("FLASK_DEBUG", if isDev then "True" else "False"),
        ("PYTHONUNBUFFERED", "1")] k = none := by
      simp [envLookup, List.find?,
        beq_eq_false_iff_ne.mpr (Ne.symm h1), beq_eq_false_iff_ne.mpr (Ne.symm h2),
        beq_eq_false_iff_ne.mpr (Ne.symm h3), beq_eq_false_iff_ne.mpr (Ne.symm h4)]
    rw [hx, envLookup_append]
    simp [Option.or]
  all_goals
    simp only [flaskEnv, ← List.append_assoc]
    rw [envLookup_append]
    simp [envLookup, List.find?]

/-- C8 witness: a key present in both the process environment and the
`.env` overlay takes the overlay's value, and the explicit runtime
values take theirs. -/
theorem flaskEnv_override_order_witness :
    flaskEnv [("EDITOR", "vi"), ("LANG", "C")] [("EDITOR", "nano")]
        "5000" "127.0.0.1" false "EDITOR" =
      (envLookup [("EDITOR", "nano")] "EDITOR").or
        (envLookup [("EDITOR", "vi"), ("LANG", "C")] "EDITOR") ∧
    flaskEnv [("EDITOR", "vi"), ("LANG", "C")] [("EDITOR", "nano")]
        "5000" "127.0.0.1" false "FLASK_PORT" = some "5000" ∧
    flaskEnv [("EDITOR", "vi"), ("LANG", "C")] [("EDITOR", "nano")]
        "5000" "127.0.0.1" false "FLASK_HOST" = some "127.0.0.1" ∧
    flaskEnv [("EDITOR", "vi"), ("LANG", "C")] [("EDITOR", "nano")]
        "5000" "127.0.0.1" false "FLASK_DEBUG" = some "False" ∧
    flaskEnv [("EDITOR", "vi"), ("LANG", "C")] [("EDITOR", "nano")]
        "5000" "127.0.0.1" false "PYTHONUNBUFFERED" = some "1" :=
  flaskEnv_override_order [("EDITOR", "vi"), ("LANG", "C")] [("EDITOR", "nano")]
    "5000" "127.0.0.1" false "EDITOR"
    (by decide) (by decide) (by decide) (by decide)

/-- C6: after `stopFlaskServer` sends SIGTERM (grace period 5000 ms), a
child that closes before the grace timer fires never receives SIGKILL,
while a child still alive when the grace timer fires receives SIGKILL
and the handle is null afterwards — SIGKILL is sent iff the child has
not exited within the grace period. -/
theorem stopFlaskServer_sigkill_iff_not_exited :
    GRACE_PERIOD_MS = 5000 ∧
    stopFlaskRun liveProc [ShutEv.stopCall, ShutEv.childClose, ShutEv.graceTimer] =
      ⟨none, [Signal.sigterm], true⟩ ∧
    stopFlaskRun liveProc [ShutEv.stopCall, ShutEv.graceTimer] =
      ⟨none, [Signal.sigterm, Signal.sigkill], true⟩ := by
  decide

/-- C9: `stopFlaskServer` on a null handle is a no-op (no signal, no
state change); stopping twice from a never-launched state changes
nothing; and a second stop after the child has stopped sends no further
signal. -/
theorem stopFlaskServer_null_noop :
    (∀ σ : ShutSt, σ.flaskProcess = none → stopFlaskStep σ ShutEv.stopCall = σ) ∧
    stopFlaskRun noProc [ShutEv.stopCall, ShutEv.stopCall] = noProc ∧
    stopFlaskRun liveProc
      [ShutEv.stopCall, ShutEv.childClose, ShutEv.graceTimer, ShutEv.stopCall] =
      ⟨none, [Signal.sigterm], true⟩ := by
  refine ⟨?_, by decide, by decide⟩
  intro σ h
  simp [stopFlaskStep, h]

/-- C9 witness: stopping with no process ever launched changes
nothing. -/
theorem stopFlaskServer_null_noop_witness :
    stopFlaskStep noProc ShutEv.stopCall = noProc :=
  stopFlaskServer_null_noop.1 noProc rfl

/-- C3 counterexample: a stderr chunk with a fatal substring arriving
after the readiness *signature* but before readiness is *confirmed*
(the promise is still pending) does not transition the run to Failed —
the run even resolves successfully when the confirmation probe then
returns 200. -/
theorem fatal_after_signature_is_ignored :
    isFatalChunk "ImportError: No module named flask" = true ∧
    (startFlaskRun [StartEv.stdoutData " * Running on http://127.0.0.1:5000",
                    StartEv.stderrData "ImportError: No module named flask"]).settled
      = none ∧
    (startFlaskRun [StartEv.stdoutData " * Running on http://127.0.0.1:5000",
                    StartEv.stderrData "ImportError: No module named flask",
                    StartEv.probeDone 0 (some 200)]).settled
      = some (Except.ok ()) := by
  decide

/-- C3 (amended): if a fatal stderr chunk arrives before the readiness
signature has been seen, before the startup timeout, and before any
earlier fatal chunk, the startup promise rejects with that chunk as the
error immediately, with zero health probes performed — far short of the
HealthPoller's full retry budget. -/
theorem fatal_before_signature_short_circuits (evs : List StartEv) (l : String)
    (hq : ∀ e ∈ evs, benignEv e = true) (hl : isFatalChunk l = true) :
    startFlaskRun (evs ++ [StartEv.stderrData l]) =
      ⟨false, some (Except.error l), [], 0, 0⟩ ∧
    (startFlaskRun (evs ++ [StartEv.stderrData l])).probesUsed <
      SIGNATURE_CHECK_RETRIES := by
  have hmain : startFlaskRun (evs ++ [StartEv.stderrData l]) =
      ⟨false, some (Except.error l), [], 0, 0⟩ := by
    have hrun : List.foldl startFlaskStep startInit evs = startInit := benign_run evs hq
    simp only [startFlaskRun, List.foldl_append, hrun, List.foldl_cons, List.foldl_nil]
    simp [startFlaskStep, hl, settle, startInit]
  refine ⟨hmain, ?_⟩
  rw [hmain]
  norm_num [SIGNATURE_CHECK_RETRIES]

/-- C3 witness: an uninformative stdout chunk followed by a
`ModuleNotFoundError` stderr chunk rejects at once with that chunk,
with no probes performed. -/
theorem fatal_before_signature_short_circuits_witness :
    startFlaskRun ([StartEv.stdoutData "booting"] ++
      [StartEv.stderrData "ModuleNotFoundError: No module named flask_cors"]) =
      ⟨false, some (Except.error "ModuleNotFoundError: No module named flask_cors"),
       [], 0, 0⟩ ∧
    (startFlaskRun ([StartEv.stdoutData "booting"] ++
      [StartEv.stderrData "ModuleNotFoundError: No module named flask_cors"])).probesUsed <
      SIGNATURE_CHECK_RETRIES :=
  fatal_before_signature_short_circuits [StartEv.stdoutData "booting"]
    "ModuleNotFoundError: No module named flask_cors" (by decide) (by decide)

/-- C5: when no readiness signature has been seen, the 15000 ms startup
timeout does not fail the run outright: it starts a fallback
`checkFlaskServer` pass with the smaller 5-attempt budget, and the
startup run then resolves successfully iff one of those 5 fallback
probes succeeds; when all 5 fail, the run rejects after exactly 5
probes. -/
theorem timeout_fallback_five_probes (bs : List ProbeOutcome)
    (h : bs.length = FALLBACK_CHECK_RETRIES) :
    STARTUP_TIMEOUT_MS = 15000 ∧ FALLBACK_CHECK_RETRIES = 5 ∧
    (((startFlaskRun (StartEv.startupTimeout :: bs.map (StartEv.probeDone 0))).settled
        = some (Except.ok ())) ↔ bs.any probeOk = true) ∧
    (bs.any probeOk = false →
      startFlaskRun (StartEv.startupTimeout :: bs.map (StartEv.probeDone 0)) =
        ⟨false, some (Except.error "Flask server did not start in time"), [], 1, 5⟩) := by
  simp only [FALLBACK_CHECK_RETRIES] at h
  rcases bs with _ | ⟨b0, _ | ⟨b1, _ | ⟨b2, _ | ⟨b3, _ | ⟨b4, _ | ⟨b5, rest⟩⟩⟩⟩⟩⟩ <;>
    simp at h
  refine ⟨rfl, rfl, ?_, ?_⟩ <;>
    cases hb0 : probeOk b0 <;> cases hb1 : probeOk b1 <;> cases hb2 : probeOk b2 <;>
      cases hb3 : probeOk b3 <;> cases hb4 : probeOk b4 <;>
      simp [startFlaskRun, startFlaskStep, startCheck, settle, startInit,
            SIGNATURE_CHECK_RETRIES, FALLBACK_CHECK_RETRIES, hb0, hb1, hb2, hb3, hb4]

/-- C5 witness: with the timeout firing and all 5 fallback probes
failing, the run rejects with "Flask server did not start in time"
after exactly 5 probes. -/
theorem timeout_fallback_five_probes_witness :
    startFlaskRun (StartEv.startupTimeout ::
      ([none, none, none, none, none] : List ProbeOutcome).map (StartEv.probeDone 0)) =
      ⟨false, some (Except.error "Flask server did not start in time"), [], 1, 5⟩ :=
  (timeout_fallback_five_probes [none, none, none, none, none] (by decide)).2.2.2
    (by decide)

/-- C4 counterexample: with the port reported occupied, choosing the
dialog's second button ("Réessayer") proceeds straight to the spawn
without re-checking the port: a child process is created on a run whose
port check reported the port occupied. -/
theorem port_occupied_retry_still_spawns :
    isPortAvailable BindOutcome.bindError = false ∧
    (appWhenReady BindOutcome.bindError Choice.keepGoing true true (Except.ok ())
      Choice.keepGoing).spawned = true := by
  decide

/-- C4 (amended): when the port is occupied the check reports
unavailable, and the Supervisor halts before spawning when the user
chooses Quit; when the user chooses Retry, the startup proceeds to
spawn without re-checking the port. -/
theorem port_occupied_gate :
    isPortAvailable BindOutcome.bindError = false ∧
    (∀ (pf sf : Bool) (st : Except String Unit) (fc : Choice),
      appWhenReady BindOutcome.bindError Choice.quitApp pf sf st fc =
        ⟨false, true, false, 0, false⟩) ∧
    (∀ (st : Except String Unit) (fc : Choice),
      (appWhenReady BindOutcome.bindError Choice.keepGoing true true st fc).spawned
        = true) := by
  refine ⟨rfl, ?_, ?_⟩
  · intro pf sf st fc
    rfl
  · intro st fc
    rcases st with e | u
    · cases fc <;> rfl
    · rfl

/-- C1 counterexample: a run in which `startFlaskServer` rejects and
the user chooses "Continuer sans serveur" still creates the window and
sends the `flask-server-ready` notification — it is published on a run
that ended in Failed, before any successful health probe. -/
theorem ready_signal_on_failed_run :
    appWhenReady BindOutcome.listening Choice.keepGoing true true
      (Except.error "Flask server did not respond in time") Choice.keepGoing =
      ⟨true, false, true, 1, false⟩ := by
  decide

/-- C1 (amended): the `flask-server-ready` notification is published at
most once per `app.whenReady` run, and whenever it is published the run
either confirmed readiness (`startFlaskServer` resolved) or the user
explicitly chose to continue without the server after a failed
startup. -/
theorem ready_signal_once_gate (pb : BindOutcome) (pc : Choice) (pf sf : Bool)
    (st : Except String Unit) (fc : Choice) :
    (appWhenReady pb pc pf sf st fc).readyNotifications ≤ 1 ∧
    ((appWhenReady pb pc pf sf st fc).readyNotifications = 1 →
      (appWhenReady pb pc pf sf st fc).flaskStarted = true ∨ fc = Choice.keepGoing) := by
  cases pb <;> cases pc <;> cases pf <;> cases sf <;> rcases st with e | u <;> cases fc <;>
    simp [appWhenReady, isPortAvailable]

/-- C1 witness: a successful startup publishes the notification once,
and the gate holds there. -/
theorem ready_signal_once_gate_witness :
    (appWhenReady BindOutcome.listening Choice.keepGoing true true (Except.ok ())
      Choice.quitApp).readyNotifications ≤ 1 ∧
    ((appWhenReady BindOutcome.listening Choice.keepGoing true true (Except.ok ())
      Choice.quitApp).flaskStarted = true ∨ Choice.quitApp = Choice.keepGoing) :=
  ⟨(ready_signal_once_gate BindOutcome.listening Choice.keepGoing true true
      (Except.ok ()) Choice.quitApp).1,
   (ready_signal_once_gate BindOutcome.listening Choice.keepGoing true true
      (Except.ok ()) Choice.quitApp).2 (by decide)⟩

end Supervisor
